import Mathlib

/-!
Verification development for the neutraledu repository.

The file embeds, as executable Lean definitions, the two mechanisms the
specification describes: the AI request gateway of `src/lib/gemini.ts`
(request queue, exponential-backoff retry, offline fallbacks, and the four
public operations) and the interactive-question schedulers of
`VideoPlayer.tsx` and `LessonDetailPage.tsx` (periodic position check,
answer handling, modal lifecycle).  Asynchronous remote calls are
abstracted as functions from the attempt index to an `Except` outcome;
the React component state is a record, and each handler is a state
transformer.  Theorems about the claims of the specification follow the
definitions.
-/

/-- Test whether the first list occurs at the head of the second.
Building block for the embedding of JavaScript `String.prototype.includes`. -/
def hasPrefixChars : List Char → List Char → Bool
  | [], _ => true
  | _ :: _, [] => false
  | c :: cs, d :: ds => c == d && hasPrefixChars cs ds

/-- Test whether the first list occurs contiguously anywhere in the second. -/
def containsSub (sub : List Char) : List Char → Bool
  | [] => hasPrefixChars sub []
  | c :: rest => hasPrefixChars sub (c :: rest) || containsSub sub rest

/-- Embedding of JavaScript `s.includes(sub)` on strings. -/
def strIncludes (s sub : String) : Bool := containsSub sub.data s.data

/-- `InteractiveQuestion` as declared in `VideoPlayer.tsx` and
`LessonDetailPage.tsx`: an id, a video timestamp in seconds, the prompt,
the option texts and the correct option text. -/
structure InteractiveQuestion where
  id : String
  timestamp : Int
  question : String
  options : List String
  correctAnswer : String
  deriving DecidableEq

namespace Gemini

/-- `RATE_LIMIT_DELAY` from `src/lib/gemini.ts`, in milliseconds. -/
def RATE_LIMIT_DELAY : Nat := 1000

/-- One unit of work in `requestQueue`: how long awaiting it takes and
whether it resolves (`ok = true`) or rejects. -/
structure QueueItem where
  duration : Nat
  ok : Bool
  deriving DecidableEq

/-- Execution record for one queue item: when the drain loop popped it,
when awaiting it finished, and whether it resolved. -/
structure ExecEvent where
  start : Nat
  finish : Nat
  ok : Bool
  deriving DecidableEq

/-- Embedding of the `while` loop of `processQueue`, started at time `t`:
shift the front item, await it, and — only when the await did not throw —
sleep `RATE_LIMIT_DELAY` before the next iteration (the sleep sits inside
the `try`; a rejected item jumps to the `catch` and the loop continues
immediately). -/
def processQueueFrom (t : Nat) : List QueueItem → List ExecEvent
  | [] => []
  | item :: rest =>
    let fin := t + item.duration
    let next := if item.ok then fin + RATE_LIMIT_DELAY else fin
    ⟨t, fin, item.ok⟩ :: processQueueFrom next rest

/-- Embedding of the `for` loop of `retryWithBackoff`.  `i` is the loop
counter and `fuel = maxRetries - i` the remaining iterations.  The outcome
of attempt `i` is `fn i`.  Returns the delivered result (`none` models the
JavaScript fall-through that returns `undefined` when the loop runs out,
which cannot happen for positive `maxRetries` since the last iteration
rethrows), the total backoff delay in milliseconds, and the number of
times `fn` was invoked.  The loop retries only when the error message
includes `"429"` and `i < maxRetries - 1`, sleeping `2 ^ i * 1000`. -/
def retryLoop (fn : Nat → Except String String) :
    Nat → Nat → Option (Except String String) × Nat × Nat
  | _, 0 => (none, 0, 0)
  | i, fuel + 1 =>
    match fn i with
    | .ok v => (some (.ok v), 0, 1)
    | .error e =>
      if strIncludes e "429" && !(fuel == 0) then
        let r := retryLoop fn (i + 1) fuel
        (r.1, 2 ^ i * 1000 + r.2.1, r.2.2 + 1)
      else
        (some (.error e), 0, 1)

/-- `retryWithBackoff fn maxRetries`: run the retry loop from `i = 0`. -/
def retryWithBackoff (fn : Nat → Except String String) (maxRetries : Nat) :
    Option (Except String String) × Nat × Nat :=
  retryLoop fn 0 maxRetries

/-- Context tags of `getOfflineResponse`. -/
inductive OfflineType where
  | chat
  | question
  | explanation
  | image
  deriving DecidableEq

/-- `getOfflineResponse` from `src/lib/gemini.ts`. -/
def getOfflineResponse : OfflineType → String
  | .chat => "Merhaba! Şu anda API kullanım limitimiz dolmuş durumda. Lütfen birkaç dakika bekleyip tekrar deneyin. Bu süre zarfında size yardımcı olabileceğim başka konular hakkında sorular sorabilirsiniz."
  | .question => "Bu konu hakkında temel sorular oluşturmak için API'ye ihtiyacım var. Şu anda kullanım limitimiz dolmuş durumda. Lütfen daha sonra tekrar deneyin."
  | .explanation => "Bu soru hakkında detaylı açıklama yapmak için API'ye ihtiyacım var. Şu anda kullanım limitimiz dolmuş durumda. Lütfen daha sonra tekrar deneyin."
  | .image => "Bu resmi analiz etmek için API'ye ihtiyacım var. Şu anda kullanım limitimiz dolmuş durumda. Lütfen daha sonra tekrar deneyin."

/-- Outcome of the task body of `generateText`: await the retry wrapper
around the model call (`fn` abstracts `model.generateContent` per attempt);
on success resolve the text; on an error whose message includes `429` or
`quota` resolve the chat offline response; otherwise reject.  The `none`
branch models `resolve(undefined)` and is unreachable for 3 retries. -/
def generateText (fn : Nat → Except String String) (prompt : String) :
    Except String String :=
  match (retryWithBackoff fn 3).1 with
  | some (.ok v) => .ok v
  | some (.error e) =>
    if strIncludes e "429" || strIncludes e "quota" then
      .ok (getOfflineResponse .chat)
    else
      .error e
  | none => .ok ""

/-- Outcome of the task body of `analyzeImage`: same handling as
`generateText` but with the image offline response. -/
def analyzeImage (fn : Nat → Except String String)
    (prompt imageBase64 mimeType : String) : Except String String :=
  match (retryWithBackoff fn 3).1 with
  | some (.ok v) => .ok v
  | some (.error e) =>
    if strIncludes e "429" || strIncludes e "quota" then
      .ok (getOfflineResponse .image)
    else
      .error e
  | none => .ok ""

/-- Canned fallback of `generateAIExplanation` for errors not classified
as rate-limit or quota, interpolating the learner's answer and the
correct answer exactly as the source template literal does. -/
def fallbackExplanation (userAnswer correctAnswer : String) : String :=
  "Bu soruda " ++ userAnswer ++ " cevabını verdin, ancak doğru cevap " ++ correctAnswer ++ ". \n          Bu tür sorularda dikkat etmen gereken nokta, soruyu dikkatli okumak ve tüm seçenekleri değerlendirmektir. \n          Bir dahaki sefere daha dikkatli ol! 💪"

/-- Outcome of the task body of `generateAIExplanation`: resolve the model
text on success; on a `429`/`quota` error resolve the explanation offline
response; on any other error resolve the canned fallback referencing the
learner's and the correct answer.  This operation never rejects. -/
def generateAIExplanation (fn : Nat → Except String String)
    (question : String) (options : List String)
    (correctAnswer userAnswer : String) : Except String String :=
  match (retryWithBackoff fn 3).1 with
  | some (.ok v) => .ok v
  | some (.error e) =>
    if strIncludes e "429" || strIncludes e "quota" then
      .ok (getOfflineResponse .explanation)
    else
      .ok (fallbackExplanation userAnswer correctAnswer)
  | none => .ok ""

/-- Fixed placeholder question set substituted by
`generateQuestionFromContent` when `JSON.parse` throws. -/
def placeholderQuestions : List InteractiveQuestion :=
  [⟨"q1", 30, "Bu konu hakkında ne öğrendin?",
    ["A) Temel kavramlar", "B) Detaylı analiz", "C) Pratik uygulama", "D) Hepsi"],
    "D) Hepsi"⟩,
   ⟨"q2", 120, "Hangi yöntem daha etkili?",
    ["A) Geleneksel yöntem", "B) Modern yaklaşım", "C) Hibrit yöntem", "D) Deneme yanılma"],
    "C) Hibrit yöntem"⟩,
   ⟨"q3", 300, "Bu bilgiyi nasıl uygularsın?",
    ["A) Ezberleyerek", "B) Anlayarak", "C) Pratik yaparak", "D) B ve C"],
    "D) B ve C"⟩]

/-- Outcome of the task body of `generateQuestionFromContent`.
`jsonParse` abstracts `JSON.parse` on the model text (`none` models a
thrown `SyntaxError`, in which case the fixed placeholder set is
resolved).  An error from the retry wrapper is rejected unchanged — this
operation has no offline fallback.  The `none` retry branch models
`JSON.parse(undefined)` throwing, hence also the placeholder set. -/
def generateQuestionFromContent (fn : Nat → Except String String)
    (jsonParse : String → Option (List InteractiveQuestion))
    (content subject : String) : Except String (List InteractiveQuestion) :=
  match (retryWithBackoff fn 3).1 with
  | some (.ok text) =>
    match jsonParse text with
    | some parsed => .ok parsed
    | none => .ok placeholderQuestions
  | some (.error e) => .error e
  | none => .ok placeholderQuestions

end Gemini

namespace VideoPlayer

/-- Component state of `VideoPlayer.tsx` relevant to the question
scheduler: the single nullable `activeQuestion`, the list of correctly
answered question ids, and the playing flag. -/
structure State where
  activeQuestion : Option InteractiveQuestion
  answeredQuestions : List String
  isPlaying : Bool
  deriving DecidableEq

/-- Initial state: `useState(null)`, `useState([])`, `useState(false)`. -/
def init : State := ⟨none, [], false⟩

/-- Body of the interval callback in the question-check effect, sampled at
the floored playback position `currentTime`.  The interval exists only
while the video is playing; the shown question is the first in list order
whose timestamp equals the floored position exactly and whose id is not in
the answered list.  Showing it pauses playback and makes it active. -/
def tick (questions : List InteractiveQuestion) (currentTime : Int)
    (s : State) : State :=
  if s.isPlaying then
    match questions.find? (fun q =>
        q.timestamp == currentTime && !(s.answeredQuestions.contains q.id)) with
    | some q => { s with isPlaying := false, activeQuestion := some q }
    | none => s
  else s

/-- `handleAnswer` from `VideoPlayer.tsx`.  Returns the next state and
whether the iframe source was reset (reloading the video from the
beginning).  A correct answer appends the active question id to the
answered list, clears the active question and resumes; an incorrect
answer clears the whole answered list, clears the active question,
reloads the video source and resumes. -/
def handleAnswer (isCorrect : Bool) (s : State) : State × Bool :=
  match s.activeQuestion with
  | none => (s, false)
  | some q =>
    if isCorrect then
      ({ s with answeredQuestions := s.answeredQuestions ++ [q.id],
                activeQuestion := none, isPlaying := true }, false)
    else
      ({ s with answeredQuestions := [], activeQuestion := none,
                isPlaying := true }, true)

/-- User-visible events of a `VideoPlayer` session. -/
inductive Event where
  | tick (t : Int)
  | answer (isCorrect : Bool)
  | close
  | togglePlay

/-- One step of the session: interval sample, `handleAnswer` from the
modal, the modal's `onClose`, or the play/pause button. -/
def step (questions : List InteractiveQuestion) (s : State) : Event → State
  | .tick t => tick questions t s
  | .answer c => (handleAnswer c s).1
  | .close => { s with activeQuestion := none }
  | .togglePlay => { s with isPlaying := !s.isPlaying }

/-- Run a sequence of session events from a state. -/
def runEvents (questions : List InteractiveQuestion) (s : State)
    (evs : List Event) : State :=
  evs.foldl (step questions) s

/-- Number of questions displayed and blocking: the modal renders exactly
when `activeQuestion` is non-null. -/
def activeCount (s : State) : Nat :=
  if s.activeQuestion.isSome then 1 else 0

end VideoPlayer

namespace LessonDetailPage

/-- Component state of `LessonDetailPage.tsx` relevant to the question
scheduler and answer flow.  The page keeps no record of answered
questions. -/
structure State where
  currentQuestion : Option InteractiveQuestion
  showQuestionModal : Bool
  selectedAnswer : String
  showExplanation : Bool
  aiExplanation : String
  isVideoPlaying : Bool
  videoProgress : Int
  deriving DecidableEq

/-- Initial state of the page. -/
def init : State := ⟨none, false, "", false, "", false, 0⟩

/-- Body of the interval installed by `startQuestionCheck`: find the first
question within 2 seconds of the sampled position; if one exists and the
modal is not already shown, make it current, open the modal and pause. -/
def questionCheckTick (questions : List InteractiveQuestion) (s : State) :
    State :=
  match questions.find? (fun q =>
      decide ((q.timestamp - s.videoProgress).natAbs < 2)) with
  | some q =>
    if !s.showQuestionModal then
      { s with currentQuestion := some q, showQuestionModal := true,
               isVideoPlaying := false }
    else s
  | none => s

/-- Side effects of one `handleAnswerSubmit` call: how many AI explanation
requests were issued and how many mistake records were inserted into the
`lesson_mistakes` store. -/
structure SubmitEffects where
  explanationRequests : Nat
  mistakeInserts : Nat
  deriving DecidableEq

/-- `handleAnswerSubmit` from `LessonDetailPage.tsx`, with the outcome of
the awaited `generateAIExplanation` call abstracted as `explResult` (the
signed-in user is assumed present).  A correct answer only emits a toast;
an incorrect answer requests an explanation once and, when that resolves,
stores it, opens the explanation sub-state and inserts one mistake
record.  No answered-question record is kept on either path. -/
def handleAnswerSubmit (explResult : Except String String) (s : State) :
    State × SubmitEffects :=
  match s.currentQuestion with
  | none => (s, ⟨0, 0⟩)
  | some q =>
    if s.selectedAnswer == "" then (s, ⟨0, 0⟩)
    else if s.selectedAnswer == q.correctAnswer then (s, ⟨0, 0⟩)
    else
      match explResult with
      | .ok explanation =>
        ({ s with aiExplanation := explanation, showExplanation := true },
         ⟨1, 1⟩)
      | .error _ => (s, ⟨1, 0⟩)

/-- `closeQuestionModal` from `LessonDetailPage.tsx`. -/
def closeQuestionModal (s : State) : State :=
  { s with showQuestionModal := false, currentQuestion := none,
           selectedAnswer := "", showExplanation := false,
           aiExplanation := "", isVideoPlaying := true }

/-- Marker buttons under the video: force-activate a question. -/
def handleMarkerClick (q : InteractiveQuestion) (s : State) : State :=
  { s with currentQuestion := some q, showQuestionModal := true }

/-- User-visible events of a lesson-viewing session. -/
inductive Event where
  | tick
  | setProgress (t : Int)
  | selectAnswer (a : String)
  | submit (explResult : Except String String)
  | markerClick (q : InteractiveQuestion)
  | close

/-- One step of the session. -/
def step (questions : List InteractiveQuestion) (s : State) : Event → State
  | .tick => questionCheckTick questions s
  | .setProgress t => { s with videoProgress := t }
  | .selectAnswer a => { s with selectedAnswer := a }
  | .submit r => (handleAnswerSubmit r s).1
  | .markerClick q => handleMarkerClick q s
  | .close => closeQuestionModal s

/-- Run a sequence of session events from a state. -/
def runEvents (questions : List InteractiveQuestion) (s : State)
    (evs : List Event) : State :=
  evs.foldl (step questions) s

/-- Number of questions displayed and blocking: the modal renders exactly
when `showQuestionModal` holds and `currentQuestion` is non-null. -/
def activeCount (s : State) : Nat :=
  if s.showQuestionModal && s.currentQuestion.isSome then 1 else 0

end LessonDetailPage

/-- Sample question at timestamp 30 used for concrete instantiations. -/
def qThirty : InteractiveQuestion :=
  ⟨"q-30", 30, "Otuzuncu saniyede ne olur?", ["A) Bir", "B) İki"], "A) Bir"⟩

/-- C1: the claim says a question becomes active iff the sampled position
is within the 2-second tolerance of its timestamp, none is active and it
is unanswered.  Counterexample: in `VideoPlayer`, position 31 is within
tolerance of timestamp 30, no question is active and none is answered,
yet the periodic check activates nothing, because the code compares the
floored position to the timestamp with strict equality. -/
theorem C1_counterexample :
    ((31 : Int) - qThirty.timestamp).natAbs < 2
    ∧ (([] : List String).contains qThirty.id) = false
    ∧ (VideoPlayer.tick [qThirty] 31 ⟨none, [], true⟩).activeQuestion = none := by
  decide

/-- C1 (amended): in `VideoPlayer`, while playing with no active question,
the periodic check activates a question only if its timestamp equals the
floored sampled position exactly and its id is not in the answered list,
and activates none only if no listed question satisfies that.  In
`LessonDetailPage`, with the modal closed, the check opens the modal on a
listed question within 2 seconds of the sampled position exactly when one
exists — with no answered-set condition at all. -/
theorem C1_trigger_rule :
    (∀ (qs : List InteractiveQuestion) (t : Int) (s : VideoPlayer.State)
       (q : InteractiveQuestion),
       s.isPlaying = true → s.activeQuestion = none →
       ((VideoPlayer.tick qs t s).activeQuestion = some q →
          q ∈ qs ∧ q.timestamp = t
            ∧ s.answeredQuestions.contains q.id = false)
       ∧ ((VideoPlayer.tick qs t s).activeQuestion = none →
          ∀ q' ∈ qs, q'.timestamp = t →
            s.answeredQuestions.contains q'.id = true))
    ∧ (∀ (qs : List InteractiveQuestion) (s : LessonDetailPage.State),
       s.showQuestionModal = false →
       ((LessonDetailPage.questionCheckTick qs s).showQuestionModal = true →
          ∃ q ∈ qs,
            (LessonDetailPage.questionCheckTick qs s).currentQuestion = some q
            ∧ (q.timestamp - s.videoProgress).natAbs < 2
            ∧ (LessonDetailPage.questionCheckTick qs s).isVideoPlaying = false)
       ∧ ((LessonDetailPage.questionCheckTick qs s).showQuestionModal = false →
          ∀ q ∈ qs, ¬((q.timestamp - s.videoProgress).natAbs < 2))) := by
  constructor
  · intro qs t s q hp ha
    cases hf : qs.find? (fun q' =>
        q'.timestamp == t && !(s.answeredQuestions.contains q'.id)) with
    | none =>
      have hstate : VideoPlayer.tick qs t s = s := by
        unfold VideoPlayer.tick
        rw [hp, hf]
        exact rfl
      constructor
      · intro hsome
        rw [hstate, ha] at hsome
        exact absurd hsome (by simp)
      · intro _ q' hq' hts
        have hnp := List.find?_eq_none.mp hf q' hq'
        rw [Bool.not_eq_true] at hnp
        simpa [hts] using hnp
    | some a =>
      have hstate : VideoPlayer.tick qs t s
          = { s with isPlaying := false, activeQuestion := some a } := by
        unfold VideoPlayer.tick
        rw [hp, hf]
        exact rfl
      have hmem := List.mem_of_find?_eq_some hf
      have hpred := List.find?_some hf
      rw [Bool.and_eq_true] at hpred
      obtain ⟨hts, hcon⟩ := hpred
      constructor
      · intro hsome
        rw [hstate] at hsome
        simp only [Option.some.injEq] at hsome
        subst hsome
        exact ⟨hmem, by simpa using hts, by simpa using hcon⟩
      · intro hnone
        rw [hstate] at hnone
        exact absurd hnone (by simp)
  · intro qs s hm
    cases hf : qs.find? (fun q =>
        decide ((q.timestamp - s.videoProgress).natAbs < 2)) with
    | none =>
      have hstate : LessonDetailPage.questionCheckTick qs s = s := by
        unfold LessonDetailPage.questionCheckTick
        rw [hf]
      constructor
      · intro hshow
        rw [hstate] at hshow
        rw [hm] at hshow
        exact absurd hshow (by simp)
      · intro _ q hq
        have hnp := List.find?_eq_none.mp hf q hq
        rw [Bool.not_eq_true] at hnp
        simpa using hnp
    | some a =>
      have hstate : LessonDetailPage.questionCheckTick qs s
          = { s with currentQuestion := some a, showQuestionModal := true,
                     isVideoPlaying := false } := by
        unfold LessonDetailPage.questionCheckTick
        rw [hf, hm]
        exact rfl
      have hmem := List.mem_of_find?_eq_some hf
      have hpred := List.find?_some hf
      rw [decide_eq_true_eq] at hpred
      constructor
      · intro _
        exact ⟨a, hmem, by rw [hstate], hpred, by rw [hstate]⟩
      · intro hshow
        rw [hstate] at hshow
        exact absurd hshow (by simp)

/-- C1 witness: instantiating the amended trigger rule at a concrete
playing state, sample 30 and the question at timestamp 30. -/
theorem C1_witness :
    qThirty ∈ [qThirty] ∧ qThirty.timestamp = (30 : Int)
    ∧ (([] : List String).contains qThirty.id) = false :=
  (C1_trigger_rule.1 [qThirty] 30 ⟨none, [], true⟩ qThirty rfl rfl).1 (by decide)

/-- C2: the claim says the drain loop waits the fixed 1000 ms delay after
each unit regardless of success or failure.  Counterexample: a first unit
that rejects at time 5 is followed by a pop at time 5 — the delay sits
inside the `try`, so a rejected unit skips it. -/
theorem C2_counterexample :
    Gemini.processQueueFrom 0 [⟨5, false⟩, ⟨7, true⟩]
      = [⟨0, 5, false⟩, ⟨5, 12, true⟩]
    ∧ (5 : Nat) ≠ 5 + Gemini.RATE_LIMIT_DELAY := by
  decide

/-- Each drained item finishes `duration` after it starts and keeps its
success flag, pairing the trace with the submitted items in order. -/
theorem processQueueFrom_forall2 :
    ∀ (items : List Gemini.QueueItem) (t : Nat),
      List.Forall₂
        (fun (e : Gemini.ExecEvent) (it : Gemini.QueueItem) =>
          e.finish = e.start + it.duration ∧ e.ok = it.ok)
        (Gemini.processQueueFrom t items) items
  | [], _ => List.Forall₂.nil
  | _ :: rest, t => by
    simp only [Gemini.processQueueFrom]
    exact List.Forall₂.cons ⟨rfl, rfl⟩ (processQueueFrom_forall2 rest _)

/-- Consecutive drained items never overlap, and the gap between one
finish and the next start is `RATE_LIMIT_DELAY` after a success and zero
after a failure. -/
theorem processQueueFrom_chain :
    ∀ (items : List Gemini.QueueItem) (t : Nat),
      List.Chain'
        (fun e1 e2 : Gemini.ExecEvent =>
          e2.start = e1.finish + (if e1.ok then Gemini.RATE_LIMIT_DELAY else 0)
          ∧ e1.finish ≤ e2.start)
        (Gemini.processQueueFrom t items)
  | [], _ => List.chain'_nil
  | [_], t => by simp [Gemini.processQueueFrom]
  | item :: next :: rest, t => by
    simp only [Gemini.processQueueFrom]
    refine List.Chain'.cons ?_ ?_
    · constructor
      · cases h : item.ok <;> simp [h, Gemini.RATE_LIMIT_DELAY]
      · cases h : item.ok <;> simp [h]
    · exact processQueueFrom_chain (next :: rest) _

/-- C2 (amended): the drain loop executes the enqueued units one at a
time in exact submission order, each unit finishing `duration` after its
start; the next unit is popped `RATE_LIMIT_DELAY` (1000 ms) after a unit
that resolved, but immediately — with no delay — after a unit that
rejected, since the delay sits inside the `try` block. -/
theorem C2_drain_order_and_delay :
    ∀ (t : Nat) (items : List Gemini.QueueItem),
      List.Forall₂
        (fun (e : Gemini.ExecEvent) (it : Gemini.QueueItem) =>
          e.finish = e.start + it.duration ∧ e.ok = it.ok)
        (Gemini.processQueueFrom t items) items
      ∧ List.Chain'
          (fun e1 e2 : Gemini.ExecEvent =>
            e2.start = e1.finish + (if e1.ok then Gemini.RATE_LIMIT_DELAY else 0)
            ∧ e1.finish ≤ e2.start)
          (Gemini.processQueueFrom t items) :=
  fun t items => ⟨processQueueFrom_forall2 items t, processQueueFrom_chain items t⟩

/-- The retry loop never invokes the unit of work more often than its
remaining fuel allows. -/
theorem retryLoop_calls_le (fn : Nat → Except String String) :
    ∀ (i fuel : Nat), (Gemini.retryLoop fn i fuel).2.2 ≤ fuel
  | _, 0 => Nat.le_refl 0
  | i, fuel + 1 => by
    simp only [Gemini.retryLoop]
    cases hf : fn i with
    | ok v => simp
    | error e =>
      by_cases h : (strIncludes e "429" && !(fuel == 0)) = true
      · simp only [h, if_true]
        have := retryLoop_calls_le fn (i + 1) fuel
        simp
        omega
      · simp only [Bool.not_eq_true] at h
        simp [h]

/-- C3: a unit failing twice with a 429-classified error and succeeding on
the third attempt resolves with the success value after backoff delays of
`2^0*1000` and `2^1*1000` ms and exactly 3 invocations; a unit failing
with a non-429 error propagates it immediately after a single invocation
with no backoff; and no unit is ever invoked more than 3 times. -/
theorem C3_retry_backoff :
    (∀ (fn : Nat → Except String String) (e0 e1 v : String),
       fn 0 = .error e0 → strIncludes e0 "429" = true →
       fn 1 = .error e1 → strIncludes e1 "429" = true →
       fn 2 = .ok v →
       Gemini.retryWithBackoff fn 3 = (some (.ok v), 1000 + 2000, 3))
    ∧ (∀ (fn : Nat → Except String String) (e : String),
       fn 0 = .error e → strIncludes e "429" = false →
       Gemini.retryWithBackoff fn 3 = (some (.error e), 0, 1))
    ∧ (∀ fn, (Gemini.retryWithBackoff fn 3).2.2 ≤ 3) := by
  refine ⟨?_, ?_, fun fn => retryLoop_calls_le fn 0 3⟩
  · intro fn e0 e1 v h0 h0i h1 h1i h2
    simp [Gemini.retryWithBackoff, Gemini.retryLoop, h0, h0i, h1, h1i, h2]
  · intro fn e h0 h0i
    simp [Gemini.retryWithBackoff, Gemini.retryLoop, h0, h0i]

/-- Unit of work failing rate-limited on the first two attempts. -/
def fnRateLimitedTwice : Nat → Except String String := fun i =>
  if i < 2 then .error "429 Too Many Requests" else .ok "tamam"

/-- Unit of work failing with a non-rate-limit error. -/
def fnNetworkError : Nat → Except String String := fun _ =>
  .error "ağ hatası"

/-- C3 witness: the retry behaviour evaluated on two concrete units. -/
theorem C3_witness :
    Gemini.retryWithBackoff fnRateLimitedTwice 3
      = (some (.ok "tamam"), 1000 + 2000, 3)
    ∧ Gemini.retryWithBackoff fnNetworkError 3
      = (some (.error "ağ hatası"), 0, 1) :=
  ⟨C3_retry_backoff.1 fnRateLimitedTwice "429 Too Many Requests"
      "429 Too Many Requests" "tamam" rfl (by decide) rfl (by decide) rfl,
   C3_retry_backoff.2.1 fnNetworkError "ağ hatası" rfl (by decide)⟩

/-- C4: the claim says all four public operations resolve with a canned
offline message when retries exhaust on a rate-limit/quota error.
Counterexample: quiz generation with every attempt failing `429` rejects
with the error — its `catch` has no offline fallback. -/
theorem C4_counterexample :
    Gemini.generateQuestionFromContent (fun _ => .error "429") (fun _ => none)
        "içerik" "konu" = .error "429"
    ∧ Gemini.generateQuestionFromContent (fun _ => .error "429") (fun _ => none)
        "içerik" "konu" ≠ .ok Gemini.placeholderQuestions := by
  constructor
  · rfl
  · intro h
    have h' : (Except.error "429" : Except String (List InteractiveQuestion))
        = .ok Gemini.placeholderQuestions := h
    exact Except.noConfusion h'

/-- C4 (amended): the four offline texts are pairwise distinct, and when
retries exhaust on an error whose message includes `429` or `quota`, chat,
image analysis and explanation generation resolve with their respective
offline texts, while quiz generation rejects with the error unchanged
(its `question` offline text is never returned by any operation). -/
theorem C4_offline_fallbacks :
    (Gemini.getOfflineResponse .chat ≠ Gemini.getOfflineResponse .question
     ∧ Gemini.getOfflineResponse .chat ≠ Gemini.getOfflineResponse .explanation
     ∧ Gemini.getOfflineResponse .chat ≠ Gemini.getOfflineResponse .image
     ∧ Gemini.getOfflineResponse .question ≠ Gemini.getOfflineResponse .explanation
     ∧ Gemini.getOfflineResponse .question ≠ Gemini.getOfflineResponse .image
     ∧ Gemini.getOfflineResponse .explanation ≠ Gemini.getOfflineResponse .image)
    ∧ (∀ (fn : Nat → Except String String)
         (e prompt img mt q ca ua content subject : String)
         (opts : List String)
         (parse : String → Option (List InteractiveQuestion)),
       (Gemini.retryWithBackoff fn 3).1 = some (.error e) →
       (strIncludes e "429" || strIncludes e "quota") = true →
       Gemini.generateText fn prompt = .ok (Gemini.getOfflineResponse .chat)
       ∧ Gemini.analyzeImage fn prompt img mt
           = .ok (Gemini.getOfflineResponse .image)
       ∧ Gemini.generateAIExplanation fn q opts ca ua
           = .ok (Gemini.getOfflineResponse .explanation)
       ∧ Gemini.generateQuestionFromContent fn parse content subject
           = .error e) := by
  constructor
  · refine ⟨?_, ?_, ?_, ?_, ?_, ?_⟩ <;> decide
  · intro fn e prompt img mt q ca ua content subject opts parse hr hq
    refine ⟨?_, ?_, ?_, ?_⟩ <;>
      simp [Gemini.generateText, Gemini.analyzeImage,
            Gemini.generateAIExplanation, Gemini.generateQuestionFromContent,
            hr, hq]

/-- Unit of work failing with a bare 429 error on every attempt. -/
def fnQuotaAlways : Nat → Except String String := fun _ => .error "429"

/-- C4 witness: the amended fallback behaviour at a concrete always-429
unit of work. -/
theorem C4_witness :
    Gemini.generateText fnQuotaAlways "merhaba"
      = .ok (Gemini.getOfflineResponse .chat)
    ∧ Gemini.analyzeImage fnQuotaAlways "merhaba" "img" "image/png"
      = .ok (Gemini.getOfflineResponse .image)
    ∧ Gemini.generateAIExplanation fnQuotaAlways "Soru" ["A", "B"] "A" "B"
      = .ok (Gemini.getOfflineResponse .explanation)
    ∧ Gemini.generateQuestionFromContent fnQuotaAlways (fun _ => none)
        "içerik" "konu" = .error "429" :=
  C4_offline_fallbacks.2 fnQuotaAlways "429" "merhaba" "img" "image/png"
    "Soru" "A" "B" "içerik" "konu" ["A", "B"] (fun _ => none)
    rfl (by decide)

/-- C5: at most one interactive question is displayed and blocking at any
instant: in both components the rendered question is a single nullable
state cell, so after any sequence of session events the number of
displayed questions is at most one. -/
theorem C5_at_most_one_active :
    (∀ (qs : List InteractiveQuestion) (s : VideoPlayer.State)
       (evs : List VideoPlayer.Event),
       VideoPlayer.activeCount (VideoPlayer.runEvents qs s evs) ≤ 1)
    ∧ (∀ (qs : List InteractiveQuestion) (s : LessonDetailPage.State)
       (evs : List LessonDetailPage.Event),
       LessonDetailPage.activeCount (LessonDetailPage.runEvents qs s evs) ≤ 1) := by
  constructor
  · intro qs s evs
    unfold VideoPlayer.activeCount
    split <;> simp
  · intro qs s evs
    unfold LessonDetailPage.activeCount
    split <;> simp

/-- C6: the claim says a correctly answered question's id enters the
answered set, the overlay closes, playback resumes and the scheduler
never re-activates it.  Counterexample: in `LessonDetailPage`, after
answering the question at timestamp 30 correctly the modal is still open
(the correct branch only emits a toast), and after manually closing it
the very next tick at the same position re-activates the same question —
the page keeps no answered set. -/
theorem C6_counterexample :
    ("A) Bir" == qThirty.correctAnswer) = true
    ∧ (LessonDetailPage.runEvents [qThirty] LessonDetailPage.init
        [.setProgress 30, .tick, .selectAnswer "A) Bir",
         .submit (.ok "açıklama")]).showQuestionModal = true
    ∧ (LessonDetailPage.runEvents [qThirty] LessonDetailPage.init
        [.setProgress 30, .tick, .selectAnswer "A) Bir",
         .submit (.ok "açıklama"), .close, .tick]).currentQuestion
        = some qThirty
    ∧ (LessonDetailPage.runEvents [qThirty] LessonDetailPage.init
        [.setProgress 30, .tick, .selectAnswer "A) Bir",
         .submit (.ok "açıklama"), .close, .tick]).showQuestionModal = true := by
  decide

/-- C6 (amended): in `VideoPlayer` a correct answer appends the active
question's id to the answered list exactly once, closes the overlay and
resumes playback, and as long as the id stays in the answered list —
i.e. no later incorrect answer resets it — the periodic check never
re-activates that question at any sampled position, backward seeks
included.  In `LessonDetailPage` no answered set exists and a correctly
answered question re-activates (see the counterexample). -/
theorem C6_correct_answer :
    (∀ (s : VideoPlayer.State) (q : InteractiveQuestion),
       s.activeQuestion = some q →
       (VideoPlayer.handleAnswer true s).1.answeredQuestions
           = s.answeredQuestions ++ [q.id]
       ∧ (VideoPlayer.handleAnswer true s).1.activeQuestion = none
       ∧ (VideoPlayer.handleAnswer true s).1.isPlaying = true
       ∧ (s.answeredQuestions.count q.id = 0 →
            (VideoPlayer.handleAnswer true s).1.answeredQuestions.count q.id
              = 1))
    ∧ (∀ (qs : List InteractiveQuestion) (t : Int) (s : VideoPlayer.State)
       (q : InteractiveQuestion),
       s.answeredQuestions.contains q.id = true →
       s.activeQuestion ≠ some q →
       (VideoPlayer.tick qs t s).activeQuestion ≠ some q) := by
  constructor
  · intro s q h
    unfold VideoPlayer.handleAnswer
    rw [h]
    refine ⟨rfl, rfl, rfl, ?_⟩
    intro h0
    simp [List.count_append, h0]
  · intro qs t s q hc hne hsome
    unfold VideoPlayer.tick at hsome
    cases hp : s.isPlaying with
    | false => rw [hp] at hsome; exact hne hsome
    | true =>
      rw [hp] at hsome
      cases hf : qs.find? (fun q' =>
          q'.timestamp == t && !(s.answeredQuestions.contains q'.id)) with
      | none =>
        rw [hf] at hsome
        exact hne hsome
      | some a =>
        rw [hf] at hsome
        simp only [if_true] at hsome
        have ha : a = q := by simpa using hsome
        have hpred := List.find?_some hf
        rw [ha] at hpred
        simp at hpred
        simp at hc
        exact hpred.2 hc

/-- C6 witness: the amended behaviour at a concrete active question and a
concrete answered state. -/
theorem C6_witness :
    ((VideoPlayer.handleAnswer true ⟨some qThirty, [], true⟩).1.answeredQuestions
        = [] ++ [qThirty.id]
     ∧ (VideoPlayer.handleAnswer true ⟨some qThirty, [], true⟩).1.activeQuestion
        = none
     ∧ (VideoPlayer.handleAnswer true ⟨some qThirty, [], true⟩).1.isPlaying
        = true
     ∧ (([] : List String).count qThirty.id = 0 →
         (VideoPlayer.handleAnswer true
            ⟨some qThirty, [], true⟩).1.answeredQuestions.count qThirty.id = 1))
    ∧ (VideoPlayer.tick [qThirty] 30
        ⟨none, [qThirty.id], true⟩).activeQuestion ≠ some qThirty :=
  ⟨C6_correct_answer.1 ⟨some qThirty, [], true⟩ qThirty rfl,
   C6_correct_answer.2 [qThirty] 30 ⟨none, [qThirty.id], true⟩ qThirty
     (by decide) (by decide)⟩

/-- C7: an incorrect submission never puts the question id into the
answered set — in `VideoPlayer` the incorrect branch resets the set to
empty, so the id is absent — and in `LessonDetailPage` the explanation
flow runs exactly once per incorrect submission: one AI explanation
request, and one mistake record inserted when the request resolves (none
when it rejects, the insert sits after the await in the same `try`). -/
theorem C7_incorrect_answer :
    (∀ (r : Except String String) (s : LessonDetailPage.State)
       (q : InteractiveQuestion) (a : String),
       s.currentQuestion = some q → s.selectedAnswer = a → a ≠ "" →
       a ≠ q.correctAnswer →
       (LessonDetailPage.handleAnswerSubmit r s).2.explanationRequests = 1
       ∧ (∀ e, r = .ok e →
           (LessonDetailPage.handleAnswerSubmit r s).2.mistakeInserts = 1)
       ∧ (∀ e, r = .error e →
           (LessonDetailPage.handleAnswerSubmit r s).2.mistakeInserts = 0))
    ∧ (∀ (s : VideoPlayer.State) (q : InteractiveQuestion),
       s.activeQuestion = some q →
       (VideoPlayer.handleAnswer false s).1.answeredQuestions.contains q.id
         = false) := by
  constructor
  · intro r s q a hq hsel hne hwrong
    have h1 : (s.selectedAnswer == "") = false := by
      rw [hsel]; exact beq_eq_false_iff_ne.mpr hne
    have h2 : (s.selectedAnswer == q.correctAnswer) = false := by
      rw [hsel]; exact beq_eq_false_iff_ne.mpr hwrong
    cases r with
    | ok e =>
      refine ⟨?_, ?_, ?_⟩
      · simp [LessonDetailPage.handleAnswerSubmit, hq, h1, h2]
      · intro e' _
        simp [LessonDetailPage.handleAnswerSubmit, hq, h1, h2]
      · intro e' he'
        exact absurd he' (by simp)
    | error e =>
      refine ⟨?_, ?_, ?_⟩
      · simp [LessonDetailPage.handleAnswerSubmit, hq, h1, h2]
      · intro e' he'
        exact absurd he' (by simp)
      · intro e' _
        simp [LessonDetailPage.handleAnswerSubmit, hq, h1, h2]
  · intro s q h
    unfold VideoPlayer.handleAnswer
    rw [h]
    rfl

/-- C7 witness: an incorrect submission of the question at timestamp 30
with a resolving explanation, and the incorrect branch of `VideoPlayer`. -/
theorem C7_witness :
    (LessonDetailPage.handleAnswerSubmit (.ok "açıklama")
        ⟨some qThirty, true, "B) İki", false, "", false, 30⟩).2.explanationRequests
      = 1
    ∧ (LessonDetailPage.handleAnswerSubmit (.ok "açıklama")
        ⟨some qThirty, true, "B) İki", false, "", false, 30⟩).2.mistakeInserts
      = 1
    ∧ (VideoPlayer.handleAnswer false
        ⟨some qThirty, ["q-30"], true⟩).1.answeredQuestions.contains qThirty.id
      = false :=
  ⟨(C7_incorrect_answer.1 (.ok "açıklama")
      ⟨some qThirty, true, "B) İki", false, "", false, 30⟩ qThirty "B) İki"
      rfl rfl (by decide) (by decide)).1,
   (C7_incorrect_answer.1 (.ok "açıklama")
      ⟨some qThirty, true, "B) İki", false, "", false, 30⟩ qThirty "B) İki"
      rfl rfl (by decide) (by decide)).2.1 "açıklama" rfl,
   C7_incorrect_answer.2 ⟨some qThirty, ["q-30"], true⟩ qThirty rfl⟩

/-- C8: a quiz-generation call whose model text does not parse resolves
with exactly the fixed placeholder set of 3 questions whose timestamps
are 30, 120 and 300 seconds. -/
theorem C8_parse_failure_placeholder :
    ∀ (fn : Nat → Except String String)
      (parse : String → Option (List InteractiveQuestion))
      (content subject text : String),
      (Gemini.retryWithBackoff fn 3).1 = some (.ok text) →
      parse text = none →
      Gemini.generateQuestionFromContent fn parse content subject
          = .ok Gemini.placeholderQuestions
      ∧ Gemini.placeholderQuestions.map InteractiveQuestion.timestamp
          = [30, 120, 300]
      ∧ Gemini.placeholderQuestions.length = 3 := by
  intro fn parse content subject text hr hp
  refine ⟨?_, by decide, by decide⟩
  simp [Gemini.generateQuestionFromContent, hr, hp]

/-- Unit of work resolving plain non-JSON text on the first attempt. -/
def fnPlainText : Nat → Except String String := fun _ => .ok "düz metin"

/-- C8 witness: a concrete unparsable model output yields the placeholder
set. -/
theorem C8_witness :
    Gemini.generateQuestionFromContent fnPlainText (fun _ => none)
        "içerik" "Matematik" = .ok Gemini.placeholderQuestions :=
  (C8_parse_failure_placeholder fnPlainText (fun _ => none) "içerik"
      "Matematik" "düz metin" rfl rfl).1

/-- C9: the claim says an error not classified as rate-limit/quota makes
the explanation handle reject unchanged.  Counterexample: with every
attempt failing on a non-quota server error, the handle resolves with the
canned fallback string instead of rejecting. -/
theorem C9_counterexample :
    Gemini.generateAIExplanation (fun _ => .error "sunucu hatası") "Soru"
        ["A", "B"] "A" "B"
      = .ok (Gemini.fallbackExplanation "B" "A")
    ∧ Gemini.generateAIExplanation (fun _ => .error "sunucu hatası") "Soru"
        ["A", "B"] "A" "B"
      ≠ .error "sunucu hatası" := by
  constructor
  · rfl
  · intro h
    have h' : (Except.ok (Gemini.fallbackExplanation "B" "A") : Except String String)
        = .error "sunucu hatası" := h
    exact Except.noConfusion h'

/-- C9 (amended): the explanation operation never rejects: it resolves
with the model text on success, with the explanation offline text when
the terminal error is classified 429/quota, and otherwise with the
deterministic canned fallback, which interpolates the learner's actual
answer and the correct answer. -/
theorem C9_explanation_resolution :
    ∀ (fn : Nat → Except String String) (q ca ua : String)
      (opts : List String),
      (∃ s, Gemini.generateAIExplanation fn q opts ca ua = .ok s)
      ∧ (∀ v, (Gemini.retryWithBackoff fn 3).1 = some (.ok v) →
          Gemini.generateAIExplanation fn q opts ca ua = .ok v)
      ∧ (∀ e, (Gemini.retryWithBackoff fn 3).1 = some (.error e) →
          (strIncludes e "429" || strIncludes e "quota") = true →
          Gemini.generateAIExplanation fn q opts ca ua
            = .ok (Gemini.getOfflineResponse .explanation))
      ∧ (∀ e, (Gemini.retryWithBackoff fn 3).1 = some (.error e) →
          (strIncludes e "429" || strIncludes e "quota") = false →
          Gemini.generateAIExplanation fn q opts ca ua
            = .ok (Gemini.fallbackExplanation ua ca)
          ∧ ∃ pre mid post, Gemini.fallbackExplanation ua ca
              = pre ++ ua ++ mid ++ ca ++ post) := by
  intro fn q ca ua opts
  refine ⟨?_, ?_, ?_, ?_⟩
  · unfold Gemini.generateAIExplanation
    cases hr : (Gemini.retryWithBackoff fn 3).1 with
    | none => exact ⟨"", rfl⟩
    | some r =>
      cases r with
      | ok v => exact ⟨v, rfl⟩
      | error e =>
        by_cases hq : (strIncludes e "429" || strIncludes e "quota") = true
        · exact ⟨Gemini.getOfflineResponse .explanation, by simp [hq]⟩
        · rw [Bool.not_eq_true] at hq
          exact ⟨Gemini.fallbackExplanation ua ca, by simp [hq]⟩
  · intro v hr
    simp [Gemini.generateAIExplanation, hr]
  · intro e hr hq
    simp [Gemini.generateAIExplanation, hr, hq]
  · intro e hr hq
    refine ⟨by simp [Gemini.generateAIExplanation, hr, hq], ?_⟩
    exact ⟨"Bu soruda ", " cevabını verdin, ancak doğru cevap ",
      ". \n          Bu tür sorularda dikkat etmen gereken nokta, soruyu dikkatli okumak ve tüm seçenekleri değerlendirmektir. \n          Bir dahaki sefere daha dikkatli ol! 💪", rfl⟩

/-- Unit of work failing with a quota-classified message. -/
def fnQuotaMessage : Nat → Except String String := fun _ =>
  .error "quota aşıldı"

/-- C9 witness: a quota-classified terminal error resolves with the
explanation offline text. -/
theorem C9_witness :
    Gemini.generateAIExplanation fnQuotaMessage "Soru" ["A", "B"] "A" "B"
      = .ok (Gemini.getOfflineResponse .explanation) :=
  (C9_explanation_resolution fnQuotaMessage "Soru" "A" "B" ["A", "B"]).2.2.1
    "quota aşıldı" rfl (by decide)

/-- C10: in `VideoPlayer` an incorrect answer resets the whole answered
list to empty, reloads the video source from the beginning and resumes,
so every previously answered question becomes eligible to trigger again
in the same session. -/
theorem C10_reset_on_incorrect :
    ∀ (s : VideoPlayer.State) (q : InteractiveQuestion),
      s.activeQuestion = some q →
      (VideoPlayer.handleAnswer false s).1.answeredQuestions = []
      ∧ (VideoPlayer.handleAnswer false s).2 = true
      ∧ (VideoPlayer.handleAnswer false s).1.isPlaying = true
      ∧ ∀ x ∈ s.answeredQuestions,
          x ∉ (VideoPlayer.handleAnswer false s).1.answeredQuestions := by
  intro s q h
  unfold VideoPlayer.handleAnswer
  rw [h]
  exact ⟨rfl, rfl, rfl, by simp⟩

/-- C10 witness: a concrete state with two previously answered questions
is fully reset by an incorrect answer and the video source is reloaded. -/
theorem C10_witness :
    (VideoPlayer.handleAnswer false
        ⟨some qThirty, ["eski-1", "eski-2"], true⟩).1.answeredQuestions = []
    ∧ (VideoPlayer.handleAnswer false
        ⟨some qThirty, ["eski-1", "eski-2"], true⟩).2 = true :=
  ⟨(C10_reset_on_incorrect ⟨some qThirty, ["eski-1", "eski-2"], true⟩ qThirty
      rfl).1,
   (C10_reset_on_incorrect ⟨some qThirty, ["eski-1", "eski-2"], true⟩ qThirty
      rfl).2.1⟩
